import Mathlib

/-!
Shallow embedding of `src/streamlit_app.py` (carbontracker), covering the
emissions-aggregation arithmetic, the comparison display, the reduction-tip
category selection, the community lookup tables, the city/state display-name
parsing, and the route-distance estimation with its haversine fallback.

Numeric Python values are embedded over `ℚ` where the source arithmetic is
field arithmetic (all the emission computations), and over `ℝ` for the
haversine distance, which uses transcendental functions.
-/

namespace Carbontracker

/-- `EMISSION_FACTORS` dict (lines 10-15): fixed kgCO2 factors per unit. -/
structure EmissionFactors where
  transportation : ℚ
  electricity : ℚ
  diet : ℚ
  waste : ℚ

/-- The concrete `EMISSION_FACTORS` constant of the source. -/
def EMISSION_FACTORS : EmissionFactors :=
  { transportation := 0.14  -- kgCO2/km
    electricity := 0.82     -- kgCO2/kWh
    diet := 1.25            -- kgCO2/meal
    waste := 0.1 }          -- kgCO2/kg

/-- `COUNTRY_AVERAGES.get(country, 4.7)` (lines 17-19 and the `.get` calls at
lines 132 and 152): dict lookup with default 4.7. -/
def country_averages_get (country : String) : ℚ :=
  if country = "MY" then 7.7
  else if country = "US" then 14.7
  else if country = "IN" then 1.9
  else if country = "CN" then 7.7
  else if country = "GLOBAL" then 4.7
  else 4.7

/-- `COUNTRY_POPULATIONS.get(country, 1)` (lines 21-23, used at line 133),
in millions. -/
def country_populations_get (country : String) : ℚ :=
  if country = "MY" then 33.57
  else if country = "US" then 331.9
  else if country = "IN" then 1408
  else if country = "CN" then 1412
  else 1

/-- A `{'pop': .., 'emission_factor': ..}` entry of `CITY_EMISSIONS`. -/
structure CityEntry where
  pop : ℚ
  emission_factor : ℚ

/-- `CITY_EMISSIONS.get(city_name, None)` (lines 25-30, used at line 138):
dict lookup returning `None` for absent keys. -/
def city_emissions_get (city_name : String) : Option CityEntry :=
  if city_name = "Kuala Lumpur" then some ⟨1.8, 8.2⟩
  else if city_name = "New York" then some ⟨8.4, 10.5⟩
  else if city_name = "Mumbai" then some ⟨12.5, 2.8⟩
  else if city_name = "Beijing" then some ⟨21.5, 9.1⟩
  else none

/-- A `{'population': .., 'emission_factor': ..}` entry of
`MALAYSIA_STATE_EMISSIONS`. -/
structure StateEntry where
  population : ℚ
  emission_factor : ℚ

/-- `MALAYSIA_STATE_EMISSIONS.get(state_name, None)` (lines 32-36, used at
line 145). -/
def malaysia_state_emissions_get (state_name : String) : Option StateEntry :=
  if state_name = "Selangor" then some ⟨6.98, 9.1⟩
  else if state_name = "Johor" then some ⟨4.01, 8.7⟩
  else if state_name = "Sabah" then some ⟨3.54, 7.2⟩
  else none

/-- The `inputs` dict passed to `calculate_emissions` (lines 228-234):
distance (km, one way), work days per year, monthly electricity (kWh),
weekly waste (kg), daily meals. -/
structure Inputs where
  distance : ℚ
  work_days : ℚ
  electricity : ℚ
  waste : ℚ
  meals : ℚ

/-- The `emissions` dict built by `calculate_emissions` (lines 117-127);
the fields are listed in Python insertion order, `total` added last. -/
structure Emissions where
  transport : ℚ
  electricity : ℚ
  diet : ℚ
  waste : ℚ
  total : ℚ

/-- `calculate_emissions` (lines 115-128): each category is the annualized
quantity times its factor, divided by 1000 (kg → tonnes); `total` is
`sum(emissions.values())` over the four category entries present at that
point. -/
def calculate_emissions (inputs : Inputs) : Emissions :=
  let transport := (inputs.distance * 2 * inputs.work_days *
                     EMISSION_FACTORS.transportation) / 1000
  let electricity := (inputs.electricity * 12 *
                       EMISSION_FACTORS.electricity) / 1000
  let diet := (inputs.meals * 365 *
                EMISSION_FACTORS.diet) / 1000
  let waste := (inputs.waste * 52 *
                 EMISSION_FACTORS.waste) / 1000
  { transport := transport
    electricity := electricity
    diet := diet
    waste := waste
    total := transport + electricity + diet + waste }

/-- `update_community_emissions` (lines 130-134). -/
def update_community_emissions (country : String) : ℚ :=
  country_averages_get country * country_populations_get country

/-- `calculate_city_emissions` (lines 136-141): `.get` with `None` default,
`if city:` guard, else return `0`. -/
def calculate_city_emissions (city_name : String) : ℚ :=
  match city_emissions_get city_name with
  | some city => city.pop * city.emission_factor
  | none => 0

/-- `calculate_state_emissions` (lines 143-148). -/
def calculate_state_emissions (state_name : String) : ℚ :=
  match malaysia_state_emissions_get state_name with
  | some state => state.population * state.emission_factor
  | none => 0

/-- The numeric and polarity outputs of `show_comparison` (lines 150-172):
`percentage_diff = abs(difference) / country_avg * 100`, the progress value
`min((total/avg)*100, 200)`, and the `'above' if difference > 0 else 'below'`
word interpolated into the final message. -/
structure ComparisonDisplay where
  percentage_diff : ℚ
  progress : ℚ
  polarity : String

/-- `show_comparison` (lines 150-172), restricted to the values it computes
and reports (the widget calls themselves are presentation). -/
def show_comparison (total_co2 : ℚ) (country : String) : ComparisonDisplay :=
  let country_avg := country_averages_get country
  let difference := total_co2 - country_avg
  let percentage_diff := |difference| / country_avg * 100
  let progress := min ((total_co2 / country_avg) * 100) 200
  { percentage_diff := percentage_diff
    progress := progress
    polarity := if difference > 0 then "above" else "below" }

/-- Python `max(iterable, key=key)` on a nonempty sequence: scan left to
right, replacing the current maximum only when a strictly greater key is
seen (so ties keep the first-encountered element). -/
def py_max (key : String × ℚ → ℚ) (x : String × ℚ) (xs : List (String × ℚ)) :
    String × ℚ :=
  xs.foldl (fun m y => if key y > key m then y else m) x

/-- The key function `lambda k: emissions[k] if k != "total" else 0` of
`show_reduction_tips` (line 176), applied to (key, value) pairs. -/
def tips_key (kv : String × ℚ) : ℚ :=
  if kv.1 = "total" then 0 else kv.2

/-- The `max_category` computed at line 176 of `show_reduction_tips`:
`max(emissions, key=...)` iterates the dict keys in insertion order
(transport, electricity, diet, waste, total). -/
def max_category (emissions : Emissions) : String :=
  (py_max tips_key ("transport", emissions.transport)
    [("electricity", emissions.electricity), ("diet", emissions.diet),
     ("waste", emissions.waste), ("total", emissions.total)]).1

/-- Modelled from the spec: `dominantCategory(report) = argmax over
{transport, electricity, diet, waste}`, ties broken by first-encountered key
in the fixed ordering transport, electricity, diet, waste (spec §4.3);
`total` is not among the candidates. -/
def dominantCategory (report : Emissions) : String :=
  (py_max (fun kv => kv.2) ("transport", report.transport)
    [("electricity", report.electricity), ("diet", report.diet),
     ("waste", report.waste)]).1

/-- Python negative-capable list indexing `xs[i]`: a negative index counts
from the end; out-of-range access raises `IndexError`, modelled as `none`. -/
def py_index (xs : List String) (i : ℤ) : Option String :=
  if 0 ≤ i then xs.get? i.toNat
  else if 0 ≤ (xs.length : ℤ) + i then xs.get? ((xs.length : ℤ) + i).toNat
  else none

/-- Field decomposition of a character list at commas, keeping empty fields:
the result always has one more group than the number of commas. -/
def split_comma_chars : List Char → List (List Char)
  | [] => [[]]
  | c :: rest =>
    match split_comma_chars rest with
    | [] => [[]]
    | g :: gs => if c = ',' then [] :: g :: gs else (c :: g) :: gs

/-- Python `s.split(",")`: split on every comma, keeping empty fields;
`"".split(",") == [""]` and a comma-free string yields a one-element list. -/
def py_split_comma (s : String) : List String :=
  (split_comma_chars s.toList).map fun cs => String.mk cs

/-- Line 219: `home_full.split(",")[-2].strip() if home_full else ""`.
`.strip()` is `String.trim`; the uncaught `IndexError` of `[-2]` on a
comma-free string is the `none` outcome. -/
def parse_city_name (home_full : String) : Option String :=
  if home_full ≠ "" then (py_index (py_split_comma home_full) (-2)).map .trim
  else some ""

/-- Line 220: `home_full.split(",")[-1].strip() if home_full else ""`. -/
def parse_state_name (home_full : String) : Option String :=
  if home_full ≠ "" then (py_index (py_split_comma home_full) (-1)).map .trim
  else some ""

/-- `math.radians(x) = x * pi / 180`. -/
noncomputable def radians (x : ℝ) : ℝ := x * Real.pi / 180

/-- `math.atan2(y, x)`: the two-argument arctangent, the angle of the point
`(x, y)` in `(-π, π]` (C/Python convention, with `atan2 0 0 = 0`). -/
noncomputable def atan2 (y x : ℝ) : ℝ :=
  if 0 < x then Real.arctan (y / x)
  else if x < 0 then
    if 0 ≤ y then Real.arctan (y / x) + Real.pi
    else Real.arctan (y / x) - Real.pi
  else
    if 0 < y then Real.pi / 2
    else if y < 0 then -(Real.pi / 2)
    else 0

/-- `calculate_straight_distance` (lines 54-66): the haversine formula with
Earth radius `R = 6371` km. Coordinates are (latitude, longitude) pairs in
decimal degrees. -/
noncomputable def calculate_straight_distance (coord1 coord2 : ℝ × ℝ) : ℝ :=
  let R : ℝ := 6371
  let lat1 := radians coord1.1
  let lon1 := radians coord1.2
  let lat2 := radians coord2.1
  let lon2 := radians coord2.2
  let dlat := lat2 - lat1
  let dlon := lon2 - lon1
  let a := Real.sin (dlat / 2) ^ 2 +
    Real.cos lat1 * Real.cos lat2 * Real.sin (dlon / 2) ^ 2
  let c := 2 * atan2 (Real.sqrt a) (Real.sqrt (1 - a))
  R * c

/-- The outcome of the `try` body of `get_route_distance` (lines 70-74): on
success, the extracted `data['routes'][0]['distance']` in meters; any
exception anywhere in the body (network failure, malformed JSON, missing
fields) is the `error` case. -/
def RouteResponse := Except String ℝ

/-- `get_route_distance` (lines 68-77): on success divide the routed distance
by 1000 (meters → km); on any exception fall back to
`calculate_straight_distance` on the same coordinates (the `st.warning` call
is presentation only). Never raises. -/
noncomputable def get_route_distance (start end_ : ℝ × ℝ)
    (response : RouteResponse) : ℝ :=
  match response with
  | .ok distance => distance / 1000
  | .error _ => calculate_straight_distance start end_

/-! ## Theorems -/

/-- C1: the `total` field of the report returned by `calculate_emissions`
equals the sum of its four category values (transport + electricity + diet +
waste), exactly over the rationals. -/
theorem total_eq_sum_of_categories (i : Inputs) :
    (calculate_emissions i).total =
      (calculate_emissions i).transport + (calculate_emissions i).electricity +
      (calculate_emissions i).diet + (calculate_emissions i).waste := rfl

/-- C2: every category value is the annualized quantity times the fixed
factor, converted kg to tonnes by dividing by 1000: transport = distance ×
2 × work_days × 0.14 / 1000, electricity = electricity × 12 × 0.82 / 1000,
diet = meals × 365 × 1.25 / 1000, waste = waste × 52 × 0.1 / 1000. -/
theorem category_formulas (i : Inputs) :
    (calculate_emissions i).transport = i.distance * 2 * i.work_days * 0.14 / 1000 ∧
    (calculate_emissions i).electricity = i.electricity * 12 * 0.82 / 1000 ∧
    (calculate_emissions i).diet = i.meals * 365 * 1.25 / 1000 ∧
    (calculate_emissions i).waste = i.waste * 52 * 0.1 / 1000 :=
  ⟨rfl, rfl, rfl, rfl⟩

/-- C9: doubling the monthly electricity input while holding all other
inputs fixed exactly doubles the electricity category value. -/
theorem electricity_linear (i : Inputs) :
    (calculate_emissions { i with electricity := 2 * i.electricity }).electricity =
      2 * (calculate_emissions i).electricity := by
  simp only [calculate_emissions]
  ring

/-- C10: a city name absent from `CITY_EMISSIONS` makes
`calculate_city_emissions` return 0, and a state name absent from
`MALAYSIA_STATE_EMISSIONS` makes `calculate_state_emissions` return 0;
unknown locations never raise and never produce a nonzero figure. -/
theorem unknown_location_emissions_zero (city state : String)
    (hc : city ≠ "Kuala Lumpur" ∧ city ≠ "New York" ∧ city ≠ "Mumbai" ∧ city ≠ "Beijing")
    (hs : state ≠ "Selangor" ∧ state ≠ "Johor" ∧ state ≠ "Sabah") :
    calculate_city_emissions city = 0 ∧ calculate_state_emissions state = 0 := by
  obtain ⟨h1, h2, h3, h4⟩ := hc
  obtain ⟨g1, g2, g3⟩ := hs
  constructor <;>
    simp [calculate_city_emissions, calculate_state_emissions,
      city_emissions_get, malaysia_state_emissions_get, h1, h2, h3, h4, g1, g2, g3]

/-- Witness for C10 at the unknown location name "Atlantis". -/
theorem unknown_location_emissions_zero_witness :
    calculate_city_emissions "Atlantis" = 0 ∧ calculate_state_emissions "Atlantis" = 0 :=
  unknown_location_emissions_zero "Atlantis" "Atlantis"
    ⟨by decide, by decide, by decide, by decide⟩ ⟨by decide, by decide, by decide⟩

lemma tips_key_transport (v : ℚ) : tips_key ("transport", v) = v := by simp [tips_key]

lemma tips_key_electricity (v : ℚ) : tips_key ("electricity", v) = v := by simp [tips_key]

lemma tips_key_diet (v : ℚ) : tips_key ("diet", v) = v := by simp [tips_key]

lemma tips_key_waste (v : ℚ) : tips_key ("waste", v) = v := by simp [tips_key]

lemma tips_key_total (v : ℚ) : tips_key ("total", v) = 0 := by simp [tips_key]

/-- C4 counterexample: at total 0 tCO₂ and country "MY" (reference 7.7) the
display computes a percentage of 100, while the signed formula
(total − reference) / reference × 100 is −100: the reported percentage is
the unsigned magnitude, not the signed quantity the claim states. -/
theorem percentage_diff_unsigned_counterexample :
    (show_comparison 0 "MY").percentage_diff = 100 ∧
    (0 - country_averages_get "MY") / country_averages_get "MY" * 100 = -100 := by
  constructor
  · show |(0 : ℚ) - country_averages_get "MY"| / country_averages_get "MY" * 100 = 100
    rw [abs_of_neg (by norm_num [country_averages_get])]
    norm_num [country_averages_get]
  · norm_num [country_averages_get]

/-- C4 (amended): the percentage the comparison display computes and reports
is |total − reference| / reference × 100, an unsigned magnitude; the
above/below polarity is determined by the sign of the separately computed
difference total − reference, with "above" exactly when it is positive. -/
theorem comparison_display_amended (total_co2 : ℚ) (country : String) :
    (show_comparison total_co2 country).percentage_diff =
      |total_co2 - country_averages_get country| / country_averages_get country * 100 ∧
    ((show_comparison total_co2 country).polarity = "above" ↔
      0 < total_co2 - country_averages_get country) := by
  refine ⟨rfl, ?_⟩
  simp only [show_comparison]
  split_ifs with h
  · exact iff_of_true rfl h
  · exact iff_of_false (by decide) h

/-- C5: for a report with non-negative category values whose total is their
sum, the dominant category computed by `show_reduction_tips` is the argmax
over exactly the four category keys ("total" is never selected), ties broken
by the first key in the order transport, electricity, diet, waste. -/
theorem dominant_category_eq_argmax (e : Emissions)
    (ht : 0 ≤ e.transport) (hel : 0 ≤ e.electricity)
    (hd : 0 ≤ e.diet) (hw : 0 ≤ e.waste)
    (htot : e.total = e.transport + e.electricity + e.diet + e.waste) :
    max_category e = dominantCategory e := by
  simp only [max_category, dominantCategory, py_max, List.foldl,
    apply_ite tips_key, apply_ite (Prod.fst : String × ℚ → String),
    apply_ite (Prod.snd : String × ℚ → ℚ),
    tips_key_transport, tips_key_electricity, tips_key_diet, tips_key_waste,
    tips_key_total]
  split_ifs <;> first | rfl | (exfalso; linarith)

/-- Witness for C5 at the report (1, 5, 2, 3, 11), whose dominant category
is "electricity". -/
theorem dominant_category_eq_argmax_witness :
    max_category ⟨1, 5, 2, 3, 11⟩ = dominantCategory ⟨1, 5, 2, 3, 11⟩ :=
  dominant_category_eq_argmax ⟨1, 5, 2, 3, 11⟩ (by norm_num) (by norm_num)
    (by norm_num) (by norm_num) (by norm_num)

/-- C6 counterexample: a non-empty geocoder display name containing no comma
makes the city parse `home_full.split(",")[-2]` access index −2 of a
one-element list, an uncaught IndexError (modelled as `none`): this error
category is fatal to the calculation attempt. -/
theorem city_parse_no_comma_raises :
    parse_city_name "Menara Maybank" = none := by decide

lemma py_index_neg_isSome (xs : List String) (i : ℤ) (h0 : i < 0)
    (h1 : 0 ≤ (xs.length : ℤ) + i) : (py_index xs i).isSome := by
  unfold py_index
  rw [if_neg (by omega), if_pos h1]
  have h : xs.get? ((xs.length : ℤ) + i).toNat ≠ none := by
    rw [Ne, List.get?_eq_none]
    omega
  exact Option.ne_none_iff_isSome.mp h

/-- C6 (amended): for every non-empty display name containing at least one
comma (so its comma split has at least two fields), both the city parse and
the state parse of the main calculation path complete without raising. -/
theorem parse_succeeds_with_comma (s : String) (hs : s ≠ "")
    (h2 : 2 ≤ (py_split_comma s).length) :
    (parse_city_name s).isSome ∧ (parse_state_name s).isSome := by
  unfold parse_city_name parse_state_name
  rw [if_pos hs, if_pos hs]
  constructor
  · rw [Option.isSome_map']
    exact py_index_neg_isSome _ (-2) (by norm_num) (by omega)
  · rw [Option.isSome_map']
    exact py_index_neg_isSome _ (-1) (by norm_num) (by omega)

/-- Witness for C6 (amended) at a display name with one comma. -/
theorem parse_succeeds_with_comma_witness :
    (parse_city_name "Bukit Bintang, Kuala Lumpur").isSome ∧
    (parse_state_name "Bukit Bintang, Kuala Lumpur").isSome :=
  parse_succeeds_with_comma "Bukit Bintang, Kuala Lumpur" (by decide) (by decide)

/-- C3: whenever the primary routing request fails (the try body yields an
error), `get_route_distance` returns exactly the haversine distance
`calculate_straight_distance` computes for the same coordinate pair, and
never raises. -/
theorem route_failure_falls_back_to_haversine (start end_ : ℝ × ℝ) (err : String) :
    get_route_distance start end_ (Except.error err) =
      calculate_straight_distance start end_ := rfl

/-- C7: the haversine distance is symmetric in its two coordinate pairs. -/
theorem straight_distance_symm (A B : ℝ × ℝ) :
    calculate_straight_distance A B = calculate_straight_distance B A := by
  have hsin : ∀ x y : ℝ, Real.sin ((x - y) / 2) ^ 2 = Real.sin ((y - x) / 2) ^ 2 := by
    intro x y
    rw [show (x - y) / 2 = -((y - x) / 2) by ring, Real.sin_neg, neg_sq]
  simp only [calculate_straight_distance]
  rw [hsin (radians B.1) (radians A.1), hsin (radians B.2) (radians A.2),
    mul_comm (Real.cos (radians A.1)) (Real.cos (radians B.1))]

/-- C8: the haversine distance from any coordinate pair to itself is
exactly 0. -/
theorem straight_distance_self_eq_zero (c : ℝ × ℝ) :
    calculate_straight_distance c c = 0 := by
  have hatan : atan2 (Real.sqrt 0) (Real.sqrt (1 - 0)) = 0 := by
    rw [Real.sqrt_zero, show (1 : ℝ) - 0 = 1 by ring, Real.sqrt_one]
    unfold atan2
    rw [if_pos one_pos, zero_div, Real.arctan_zero]
  simp only [calculate_straight_distance, sub_self, zero_div, Real.sin_zero]
  rw [show (0 : ℝ) ^ 2 + Real.cos (radians c.1) * Real.cos (radians c.1) * (0 : ℝ) ^ 2
      = 0 by ring, hatan]
  ring

end Carbontracker
